import Mathlib

/-!
Verification of the forecasting core of the sales-forecast bot
(`src/model.py`, class `SalesForecaster`), as a shallow embedding.

Modelling conventions:
* pandas `Timestamp`s are nanoseconds since the Unix epoch, as `ℕ`
  (`pd.Timestamp.normalize` truncates to the start of the day).
* Calendar fields (`dayofweek`, `day`, `month`, `isocalendar().week`) are
  computed by the standard civil-from-days and ISO-8601 week algorithms,
  matching pandas semantics (pandas: Monday = 0 for `dayofweek`).
* Python floats are embedded as real numbers (`ℝ`); `np.sin`, `np.cos`,
  `np.sqrt` become `Real.sin`, `Real.cos`, `Real.sqrt`.
* The unseeded Gaussian noise draws of `np.random.normal(0, 20, periods)`
  are an explicit stream parameter `noise : ℕ → ℝ` (`noise t` is the draw
  for index `t`); the seeded shuffle of `train_test_split(random_state=42)`
  is an explicit parameter `perm : ℕ → ℕ → List ℕ` (`perm seed n` is the
  index permutation the seeded generator produces for `n` samples).
* The fitted `RandomForestRegressor` is opaque to the claims; fitting with
  fixed `random_state` is deterministic, so the fitted estimator is embedded
  as its defining data (hyperparameters plus the training set), and its
  `predict` method is an uninterpreted parameter `pv` applied pointwise.
  `model.predict` on an empty batch raises `ValueError` (sklearn validation),
  which is the only fallible step of the prediction path.
* The single artifact path `sales_model.joblib` is a one-slot file system
  `FileSystem`; `joblib.dump` writes the slot, `os.path.exists` and
  `joblib.load` read it.
* Python exceptions become `Except PyError`; a method that can raise returns
  its (partially mutated) receiver state alongside the `Except` result.
-/

/-- Nanoseconds in one day (pandas `Timestamp` unit). -/
def nsPerDay : ℕ := 86400000000000

/-- Days since 1970-01-01 of a timestamp. -/
def epochDayOf (ts : ℕ) : ℕ := ts / nsPerDay

/-- `pd.Timestamp.normalize()`: truncate a timestamp to the start of its day. -/
def normalizeTs (ts : ℕ) : ℕ := ts / nsPerDay * nsPerDay

/-- pandas `dayofweek` (Monday = 0): 1970-01-01 was a Thursday (= 3). -/
def dayOfWeekOf (ts : ℕ) : ℕ := (epochDayOf ts + 3) % 7

/-- Civil date (year, month, day) from days since 1970-01-01
(standard era-based algorithm, valid for all dates from 1970 on). -/
def civilOf (z : ℕ) : ℕ × ℕ × ℕ :=
  let z' := z + 719468
  let era := z' / 146097
  let doe := z' % 146097
  let yoe := (doe - doe / 1460 + doe / 36524 - doe / 146096) / 365
  let y := yoe + era * 400
  let doy := doe - (365 * yoe + yoe / 4 - yoe / 100)
  let mp := (5 * doy + 2) / 153
  let d := doy - (153 * mp + 2) / 5 + 1
  let m := if mp < 10 then mp + 3 else mp - 9
  (if m ≤ 2 then y + 1 else y, m, d)

/-- Gregorian leap year. -/
def isLeapYear (y : ℕ) : Bool := (y % 4 == 0 && y % 100 != 0) || y % 400 == 0

/-- Length of month `m` (1-12) of year `y`. -/
def daysInMonth (y m : ℕ) : ℕ :=
  if m = 2 then (if isLeapYear y then 29 else 28)
  else if m = 4 ∨ m = 6 ∨ m = 9 ∨ m = 11 then 30
  else 31

/-- Ordinal day of the year (1-366) of the civil date `(y, m, d)`. -/
def ordinalInYear (y m d : ℕ) : ℕ :=
  ((List.range (m - 1)).map (fun i => daysInMonth y (i + 1))).sum + d

/-- Helper for the ISO-8601 week rule: `isoP y = weekday of 31 December of y`. -/
def isoP (y : ℕ) : ℕ := (y + y / 4 - y / 100 + y / 400) % 7

/-- Number of ISO-8601 weeks in year `y` (52 or 53). -/
def isoWeeksInYear (y : ℕ) : ℕ := if isoP y = 4 ∨ isoP (y - 1) = 3 then 53 else 52

/-- pandas `isocalendar().week`: the ISO-8601 week number of a timestamp. -/
def isoWeekOf (ts : ℕ) : ℕ :=
  let c := civilOf (epochDayOf ts)
  let wd := dayOfWeekOf ts + 1
  let ord := ordinalInYear c.1 c.2.1 c.2.2
  let w := (ord + 10 - wd) / 7
  if w = 0 then isoWeeksInYear (c.1 - 1)
  else if isoWeeksInYear c.1 < w then 1
  else w

/-- The calendar columns the DataFrames of `model.py` carry
(`day_of_week`, `day_of_month`, `month`, `week_of_year`). -/
structure CalendarFields where
  day_of_week : ℕ
  day_of_month : ℕ
  month : ℕ
  week_of_year : ℕ
deriving DecidableEq, Repr

/-- All four calendar columns of a timestamp, as pandas computes them
(`dates.dayofweek`, `dates.day`, `dates.month`, `dates.isocalendar().week`). -/
def calendarOf (ts : ℕ) : CalendarFields :=
  let c := civilOf (epochDayOf ts)
  { day_of_week := dayOfWeekOf ts
    day_of_month := c.2.2
    month := c.2.1
    week_of_year := isoWeekOf ts }

/-- A row of the historical DataFrame built by `generate_sample_data`. -/
structure HistRow where
  date : ℕ
  sales : ℝ
  cal : CalendarFields

/-- A row of the future DataFrame built by `forecast` (no `sales` column). -/
structure FutRow where
  date : ℕ
  cal : CalendarFields

/-- The four cyclical columns `create_features` adds
(`day_sin`, `day_cos`, `month_sin`, `month_cos`). -/
structure FeatCols where
  day_sin : ℝ
  day_cos : ℝ
  month_sin : ℝ
  month_cos : ℝ

/-- The model input row selected by `feature_columns`
(`day_sin`, `day_cos`, `month_sin`, `month_cos`, `day_of_month`, `week_of_year`). -/
structure FeatureVector where
  day_sin : ℝ
  day_cos : ℝ
  month_sin : ℝ
  month_cos : ℝ
  day_of_month : ℕ
  week_of_year : ℕ

/-- The fitted `RandomForestRegressor`: fitting with a fixed `random_state`
is a deterministic function of the hyperparameters and training set, so the
estimator is embedded as that defining data. -/
structure FittedModel where
  nEstimators : ℕ
  randomState : ℕ
  maxDepth : ℕ
  trainX : List FeatureVector
  trainY : List ℝ

/-- The mutable fields of a `SalesForecaster` instance
(`self.model`, `self.is_trained`). -/
structure ForecasterState where
  model : Option FittedModel
  is_trained : Bool

/-- The single artifact path `sales_model.joblib` as a one-slot file system. -/
structure FileSystem where
  artifact : Option FittedModel

/-- A row of the DataFrame returned by `forecast`. -/
structure ForecastRecord where
  date : ℕ
  predicted_sales : ℝ

/-- Python exceptions relevant to the core, plus the error kinds named by the
specification taxonomy (`NotReadyError`, `InvalidRangeError`) so that claims
about them can be stated; the code itself only ever raises `valueError`
(sklearn input validation) or `attributeError` (`None.predict`). -/
inductive PyError where
  | valueError (msg : String)
  | attributeError
  | notReadyError
  | invalidRangeError
deriving DecidableEq, Repr

/-- `True` exactly on `Except.ok` results. -/
def isOkE {ε α : Type} : Except ε α → Bool
  | .ok _ => true
  | .error _ => false

/-- The uninterpreted `predict` method of a fitted estimator, applied to one
feature row. -/
def PredictFun : Type := FittedModel → FeatureVector → ℝ

/-- `SalesForecaster.__init__` (model.py lines 10-12): no model held,
`is_trained = False`. -/
def initState : ForecasterState := { model := none, is_trained := false }

/-- The epoch timestamp of `2022-01-01`, the fixed anchor of
`generate_sample_data` (18993 days after 1970-01-01). -/
def date2022 : ℕ := 18993 * nsPerDay

/-- `np.linspace(100, 500, P)` at index `t`: the linear trend of
`generate_sample_data`. `np.linspace` returns the single value 100 for
`P = 1` and `start + i * (stop - start) / (P - 1)` otherwise. -/
noncomputable def trendVal (P t : ℕ) : ℝ :=
  if P ≤ 1 then 100 else 100 + 400 * t / ((P : ℝ) - 1)

/-- `SalesForecaster.generate_sample_data` (model.py lines 14-46):
`P` consecutive days from 2022-01-01 with
`sales = max(trend + weekly + monthly + noise, 0)`. -/
noncomputable def generate_sample_data (noise : ℕ → ℝ) (periods : ℕ) : List HistRow :=
  (List.range periods).map (fun t =>
    let d := date2022 + t * nsPerDay
    let cal := calendarOf d
    { date := d
      cal := cal
      sales := max (trendVal periods t
          + 50 * Real.sin (2 * Real.pi * (cal.day_of_week : ℝ) / 7)
          + 30 * Real.sin (2 * Real.pi * (cal.day_of_month : ℝ) / 30)
          + noise t) 0 })

/-- The four cyclical encodings `create_features` computes from the calendar
columns (model.py lines 51-54). -/
noncomputable def cyclicalOf (c : CalendarFields) : FeatCols :=
  { day_sin := Real.sin (2 * Real.pi * (c.day_of_week : ℝ) / 7)
    day_cos := Real.cos (2 * Real.pi * (c.day_of_week : ℝ) / 7)
    month_sin := Real.sin (2 * Real.pi * (c.month : ℝ) / 12)
    month_cos := Real.cos (2 * Real.pi * (c.month : ℝ) / 12) }

/-- `SalesForecaster.create_features` (model.py lines 48-55) applied to the
historical DataFrame: `df.copy()` extended with the four cyclical columns
(each output row is the untouched input row paired with the new columns). -/
noncomputable def create_features_hist (df : List HistRow) : List (HistRow × FeatCols) :=
  df.map (fun r => (r, cyclicalOf r.cal))

/-- `SalesForecaster.create_features` applied to the future DataFrame of
`forecast` (same code, the input lacks the `sales` column). -/
noncomputable def create_features_future (df : List FutRow) : List (FutRow × FeatCols) :=
  df.map (fun r => (r, cyclicalOf r.cal))

/-- The `df[feature_columns]` projection of a featured historical row
(model.py lines 65-68). -/
noncomputable def featuresOfHist (p : HistRow × FeatCols) : FeatureVector :=
  { day_sin := p.2.day_sin
    day_cos := p.2.day_cos
    month_sin := p.2.month_sin
    month_cos := p.2.month_cos
    day_of_month := p.1.cal.day_of_month
    week_of_year := p.1.cal.week_of_year }

/-- The `future_df[feature_columns]` projection of a featured future row
(model.py lines 130-134). -/
noncomputable def featuresOfFut (p : FutRow × FeatCols) : FeatureVector :=
  { day_sin := p.2.day_sin
    day_cos := p.2.day_cos
    month_sin := p.2.month_sin
    month_cos := p.2.month_cos
    day_of_month := p.1.cal.day_of_month
    week_of_year := p.1.cal.week_of_year }

/-- The feature row the training path of `train_model` builds from one
historical record (`create_features` then `feature_columns` selection). -/
noncomputable def trainFeatureRow (r : HistRow) : FeatureVector :=
  featuresOfHist (r, cyclicalOf r.cal)

/-- The feature row the prediction path of `forecast` builds from one future
record (`create_features` then `feature_columns` selection). -/
noncomputable def forecastFeatureRow (r : FutRow) : FeatureVector :=
  featuresOfFut (r, cyclicalOf r.cal)

/-- sklearn `train_test_split(test_size=0.2)` test-set size:
`ceil(0.2 * n)` (the float product rounds to the rational value for every
realistic `n`, in particular for the default `n = 365`). -/
def nTestOf (n : ℕ) : ℕ := (n + 4) / 5

/-- Select the elements of `l` at the positions of `idx`, in order: the
fancy-indexing step of the seeded shuffle split. -/
def applyPerm {α : Type} (idx : List ℕ) (l : List α) : List α :=
  idx.filterMap (fun i => l.get? i)

/-- sklearn `mean_absolute_error`. -/
noncomputable def meanAbsoluteError (yTrue yPred : List ℝ) : ℝ :=
  (List.zipWith (fun a b => |a - b|) yTrue yPred).sum / yTrue.length

/-- sklearn `mean_squared_error`. -/
noncomputable def meanSquaredError (yTrue yPred : List ℝ) : ℝ :=
  (List.zipWith (fun a b => (a - b) ^ 2) yTrue yPred).sum / yTrue.length

/-- The error message sklearn raises when `train_test_split` would produce an
empty train or test set. -/
def splitErrorMsg : String :=
  "the resulting train set or test set will be empty"

/-- The error message sklearn raises when `predict` receives zero samples. -/
def emptyBatchMsg : String :=
  "Found array with 0 sample(s) while a minimum of 1 is required"

/-- `self.model.predict(X)`: sklearn validates that the batch is nonempty and
otherwise predicts row by row (the per-row value is the uninterpreted `pv`). -/
noncomputable def modelPredict (pv : PredictFun) (m : FittedModel)
    (X : List FeatureVector) : Except PyError (List ℝ) :=
  if X.length = 0 then .error (PyError.valueError emptyBatchMsg)
  else .ok (X.map (pv m))

/-- `SalesForecaster.train_model` (model.py lines 57-98). Returns the
post-call instance state, the post-call file system, and either the
`(mae, rmse)` pair or the exception raised. The only raise happens inside
`train_test_split`, before any `self` mutation or file write, so on failure
state and file system are returned unchanged. -/
noncomputable def train_model (pv : PredictFun) (perm : ℕ → ℕ → List ℕ)
    (noise : ℕ → ℝ) (st : ForecasterState) (fs : FileSystem)
    (dfOpt : Option (List HistRow)) :
    ForecasterState × FileSystem × Except PyError (ℝ × ℝ) :=
  let df := dfOpt.getD (generate_sample_data noise 365)
  let dff := create_features_hist df
  let X := dff.map featuresOfHist
  let y := dff.map (fun p => p.1.sales)
  let n := X.length
  let nTest := nTestOf n
  let nTrain := n - nTest
  if nTrain = 0 ∨ nTest = 0 then
    (st, fs, .error (PyError.valueError splitErrorMsg))
  else
    let idx := perm 42 n
    let XTrain := applyPerm (idx.drop nTest) X
    let XTest := applyPerm (idx.take nTest) X
    let yTrain := applyPerm (idx.drop nTest) y
    let yTest := applyPerm (idx.take nTest) y
    let m : FittedModel :=
      { nEstimators := 100, randomState := 42, maxDepth := 10
        trainX := XTrain, trainY := yTrain }
    let yPred := XTest.map (pv m)
    let mae := meanAbsoluteError yTest yPred
    let rmse := Real.sqrt (meanSquaredError yTest yPred)
    ({ model := some m, is_trained := true }, { artifact := some m },
      .ok (mae, rmse))

/-- The train-or-load prelude of `SalesForecaster.forecast`
(model.py lines 102-109) — the step the specification calls
`ensure_ready()`: if `self.is_trained`, do nothing; else load the artifact
if `os.path.exists` finds one, marking the instance trained; else fall back
to `self.train_model()` (whose default data generation always succeeds). -/
noncomputable def ensure_ready_step (pv : PredictFun) (perm : ℕ → ℕ → List ℕ)
    (noise : ℕ → ℝ) (st : ForecasterState) (fs : FileSystem) :
    ForecasterState × FileSystem :=
  if st.is_trained then (st, fs)
  else
    match fs.artifact with
    | some m => ({ model := some m, is_trained := true }, fs)
    | none =>
      let r := train_model pv perm noise st fs none
      (r.1, r.2.1)

/-- The future dates `forecast` builds (model.py lines 112-117):
`days` consecutive days starting one day after `now` truncated to
start-of-day. -/
def futureDates (now days : ℕ) : List ℕ :=
  (List.range days).map (fun i => normalizeTs now + (i + 1) * nsPerDay)

/-- The future DataFrame of `forecast` (model.py lines 120-126): one row per
future date with its calendar columns. -/
def futureDf (now days : ℕ) : List FutRow :=
  (futureDates now days).map (fun d => { date := d, cal := calendarOf d })

/-- The `future_df[feature_columns]` batch `forecast` feeds to the model
(model.py lines 128-134). -/
noncomputable def futureX (now days : ℕ) : List FeatureVector :=
  (create_features_future (futureDf now days)).map featuresOfFut

/-- `SalesForecaster.forecast` (model.py lines 100-142): train-or-load if
needed, build the future feature batch, predict, and zip dates with
predictions into the result DataFrame. `now` is `pd.Timestamp.now()` at the
call. Returns post-call state, post-call file system, and the records or the
exception raised. -/
noncomputable def forecast (pv : PredictFun) (perm : ℕ → ℕ → List ℕ)
    (noise : ℕ → ℝ) (st : ForecasterState) (fs : FileSystem)
    (now days : ℕ) :
    ForecasterState × FileSystem × Except PyError (List ForecastRecord) :=
  let r := ensure_ready_step pv perm noise st fs
  match r.1.model with
  | none => (r.1, r.2, .error PyError.attributeError)
  | some m =>
    match modelPredict pv m (futureX now days) with
    | .error e => (r.1, r.2, .error e)
    | .ok preds =>
      (r.1, r.2, .ok (List.zipWith
        (fun d p => { date := d, predicted_sales := p }) (futureDates now days) preds))

/-- The `/forecast` HTTP endpoint of `src/app.py` (lines 329-349): parses the
`days` query parameter and passes it straight to `SalesForecaster.forecast`
with no range validation; errors are caught and reported as a failure JSON. -/
noncomputable def get_forecast (pv : PredictFun) (perm : ℕ → ℕ → List ℕ)
    (noise : ℕ → ℝ) (st : ForecasterState) (fs : FileSystem)
    (now days : ℕ) :
    ForecasterState × FileSystem × Except PyError (List ForecastRecord) :=
  forecast pv perm noise st fs now days

/-- Reachable-state invariant of `SalesForecaster`: whenever `is_trained` is
set, a model object is held (both `train_model` and the load branch assign
`self.model` before setting the flag). -/
def WellFormed (st : ForecasterState) : Prop :=
  st.is_trained = true → st.model.isSome = true

/-- A concrete predictor for evaluating the service on sample inputs:
predicts 0 for every row. -/
def pvZero : PredictFun := fun _ _ => 0

/-- A concrete seeded-shuffle stand-in: the identity permutation. -/
def permId : ℕ → ℕ → List ℕ := fun _ n => List.range n

/-- A concrete noise stream: all draws are 0. -/
def noiseZero : ℕ → ℝ := fun _ => 0

/-- Sample calendar fields (those of 2022-01-01). -/
def calW : CalendarFields :=
  { day_of_week := 5, day_of_month := 1, month := 1, week_of_year := 52 }

/-- A sample historical record. -/
def histW : HistRow := { date := date2022, sales := 0, cal := calW }

/-- A sample future record with the same calendar fields as `histW`. -/
def futW : FutRow := { date := date2022, cal := calW }

/-- A sample fitted estimator. -/
def fitW : FittedModel :=
  { nEstimators := 100, randomState := 42, maxDepth := 10, trainX := [], trainY := [] }

/-- A sample already-trained instance state holding `fitW`. -/
def stW : ForecasterState := { model := some fitW, is_trained := true }

/-- The fitted estimator `train_model` produces in its default-data run:
100 trees, depth 10, seed 42, trained on the 292 records the seeded shuffle
leaves after the 73-record hold-out. -/
noncomputable def defaultX (noise : ℕ → ℝ) : List FeatureVector :=
  (create_features_hist (generate_sample_data noise 365)).map featuresOfHist

/-- The sales column of the default training run. -/
noncomputable def defaultY (noise : ℕ → ℝ) : List ℝ :=
  (create_features_hist (generate_sample_data noise 365)).map (fun p => p.1.sales)

/-- The estimator fitted by the default-data run of `train_model`. -/
noncomputable def defaultFit (perm : ℕ → ℕ → List ℕ) (noise : ℕ → ℝ) : FittedModel :=
  { nEstimators := 100, randomState := 42, maxDepth := 10
    trainX := applyPerm ((perm 42 365).drop 73) (defaultX noise)
    trainY := applyPerm ((perm 42 365).drop 73) (defaultY noise) }

/-- Held-out target values of the default-data run. -/
noncomputable def defaultYTest (perm : ℕ → ℕ → List ℕ) (noise : ℕ → ℝ) : List ℝ :=
  applyPerm ((perm 42 365).take 73) (defaultY noise)

/-- Held-out predictions of the default-data run. -/
noncomputable def defaultYPred (pv : PredictFun) (perm : ℕ → ℕ → List ℕ)
    (noise : ℕ → ℝ) : List ℝ :=
  (applyPerm ((perm 42 365).take 73) (defaultX noise)).map (pv (defaultFit perm noise))

/-- The historical DataFrame has one row per period. -/
lemma generate_sample_data_length (noise : ℕ → ℝ) (P : ℕ) :
    (generate_sample_data noise P).length = P := by
  simp [generate_sample_data]

/-- The future feature batch has one row per requested day. -/
lemma futureX_length (now days : ℕ) : (futureX now days).length = days := by
  simp [futureX, create_features_future, futureDf, futureDates]

/-- The future date list has one entry per requested day. -/
lemma futureDates_length (now days : ℕ) : (futureDates now days).length = days := by
  simp [futureDates]

/-- The default feature matrix has 365 rows. -/
lemma defaultX_length (noise : ℕ → ℝ) : (defaultX noise).length = 365 := by
  simp [defaultX, create_features_hist, generate_sample_data]

/-- The default target column has 365 entries. -/
lemma defaultY_length (noise : ℕ → ℝ) : (defaultY noise).length = 365 := by
  simp [defaultY, create_features_hist, generate_sample_data]

/-- The initial instance state satisfies the class invariant. -/
lemma wf_init : WellFormed initState := by
  simp [WellFormed, initState]

/-- `train_model` on its default generated data always takes the success
branch: 365 records split into 292 train + 73 test, estimator fitted,
instance marked trained, artifact overwritten, metrics returned. -/
lemma train_model_none_eq (pv : PredictFun) (perm : ℕ → ℕ → List ℕ)
    (noise : ℕ → ℝ) (st : ForecasterState) (fs : FileSystem) :
    train_model pv perm noise st fs none =
      ({ model := some (defaultFit perm noise), is_trained := true },
       { artifact := some (defaultFit perm noise) },
       .ok (meanAbsoluteError (defaultYTest perm noise) (defaultYPred pv perm noise),
            Real.sqrt (meanSquaredError (defaultYTest perm noise)
              (defaultYPred pv perm noise)))) := by
  have hlen : ((create_features_hist (generate_sample_data noise 365)).map
      featuresOfHist).length = 365 := by
    simp [create_features_hist, generate_sample_data]
  simp only [train_model, Option.getD_none]
  rw [hlen]
  norm_num [nTestOf, defaultFit, defaultX, defaultY, defaultYTest, defaultYPred]

/-- Already trained: the train-or-load prelude does nothing. -/
lemma ensure_ready_step_trained (pv : PredictFun) (perm : ℕ → ℕ → List ℕ)
    (noise : ℕ → ℝ) (st : ForecasterState) (fs : FileSystem)
    (h : st.is_trained = true) :
    ensure_ready_step pv perm noise st fs = (st, fs) := by
  simp [ensure_ready_step, h]

/-- Untrained with an artifact present: the prelude loads it and marks the
instance trained; the file system is untouched. -/
lemma ensure_ready_step_load (pv : PredictFun) (perm : ℕ → ℕ → List ℕ)
    (noise : ℕ → ℝ) (st : ForecasterState) (fs : FileSystem) (m : FittedModel)
    (h : st.is_trained = false) (ha : fs.artifact = some m) :
    ensure_ready_step pv perm noise st fs =
      ({ model := some m, is_trained := true }, fs) := by
  simp [ensure_ready_step, h, ha]

/-- Untrained with no artifact: the prelude falls back to `train_model`,
which fits the default estimator and writes the artifact. -/
lemma ensure_ready_step_trains (pv : PredictFun) (perm : ℕ → ℕ → List ℕ)
    (noise : ℕ → ℝ) (st : ForecasterState) (fs : FileSystem)
    (h : st.is_trained = false) (ha : fs.artifact = none) :
    ensure_ready_step pv perm noise st fs =
      ({ model := some (defaultFit perm noise), is_trained := true },
       { artifact := some (defaultFit perm noise) }) := by
  simp [ensure_ready_step, h, ha, train_model_none_eq]

/-- After the train-or-load prelude the instance is always trained and holds
a model, provided the input state satisfies the class invariant. -/
lemma ensure_ready_step_ready (pv : PredictFun) (perm : ℕ → ℕ → List ℕ)
    (noise : ℕ → ℝ) (st : ForecasterState) (fs : FileSystem)
    (hwf : WellFormed st) :
    ∃ m, (ensure_ready_step pv perm noise st fs).1.model = some m ∧
      (ensure_ready_step pv perm noise st fs).1.is_trained = true := by
  cases h : st.is_trained with
  | true =>
    obtain ⟨m, hm⟩ := Option.isSome_iff_exists.mp (hwf h)
    exact ⟨m, by simp [ensure_ready_step_trained pv perm noise st fs h, hm, h]⟩
  | false =>
    cases ha : fs.artifact with
    | some m =>
      exact ⟨m, by simp [ensure_ready_step_load pv perm noise st fs m h ha]⟩
    | none =>
      exact ⟨defaultFit perm noise,
        by simp [ensure_ready_step_trains pv perm noise st fs h ha]⟩

/-- The train-or-load prelude always leaves the trained flag set (every
branch either keeps a set flag or sets it). -/
lemma ensure_ready_step_is_trained (pv : PredictFun) (perm : ℕ → ℕ → List ℕ)
    (noise : ℕ → ℝ) (st : ForecasterState) (fs : FileSystem) :
    (ensure_ready_step pv perm noise st fs).1.is_trained = true := by
  cases h : st.is_trained with
  | true => simp [ensure_ready_step_trained pv perm noise st fs h, h]
  | false =>
    cases ha : fs.artifact with
    | some m => simp [ensure_ready_step_load pv perm noise st fs m h ha]
    | none => simp [ensure_ready_step_trains pv perm noise st fs h ha]

/-- `forecast` with a positive day count: the prediction succeeds and the
records are the future dates zipped with the model predictions on the
future feature batch. -/
lemma forecast_eq_ok (pv : PredictFun) (perm : ℕ → ℕ → List ℕ)
    (noise : ℕ → ℝ) (st : ForecasterState) (fs : FileSystem)
    (now days : ℕ) (m : FittedModel)
    (hm : (ensure_ready_step pv perm noise st fs).1.model = some m)
    (hd : 0 < days) :
    forecast pv perm noise st fs now days =
      ((ensure_ready_step pv perm noise st fs).1,
       (ensure_ready_step pv perm noise st fs).2,
       .ok (List.zipWith (fun d p => { date := d, predicted_sales := p })
         (futureDates now days) ((futureX now days).map (pv m)))) := by
  have hX : (futureX now days).length ≠ 0 := by
    rw [futureX_length]; omega
  simp only [forecast]
  rw [hm]
  simp [modelPredict, hX]

/-- `forecast` with a zero day count: the future batch is empty and sklearn
prediction-input validation raises `ValueError`. -/
lemma forecast_zero_eq (pv : PredictFun) (perm : ℕ → ℕ → List ℕ)
    (noise : ℕ → ℝ) (st : ForecasterState) (fs : FileSystem)
    (now : ℕ) (m : FittedModel)
    (hm : (ensure_ready_step pv perm noise st fs).1.model = some m) :
    forecast pv perm noise st fs now 0 =
      ((ensure_ready_step pv perm noise st fs).1,
       (ensure_ready_step pv perm noise st fs).2,
       .error (PyError.valueError emptyBatchMsg)) := by
  have hX : (futureX now 0).length = 0 := futureX_length now 0
  simp only [forecast]
  rw [hm]
  simp [modelPredict, hX]

/-- A timestamp is strictly before the start of the next day. -/
lemma lt_normalizeTs_add (ts : ℕ) : ts < normalizeTs ts + nsPerDay := by
  unfold normalizeTs nsPerDay
  omega

/-- Projecting the dates out of the zipped forecast records recovers the
date list, when predictions and dates have equal length. -/
lemma map_date_zipWith : ∀ (l1 : List ℕ) (l2 : List ℝ), l1.length = l2.length →
    (List.zipWith (fun d p => ({ date := d, predicted_sales := p } : ForecastRecord))
      l1 l2).map ForecastRecord.date = l1
  | [], [], _ => rfl
  | a :: as, b :: bs, h => by
    simp only [List.zipWith_cons_cons, List.map_cons, List.cons.injEq, true_and]
    exact map_date_zipWith as bs (by simpa using h)
  | [], _ :: _, h => by simp at h
  | _ :: _, [], h => by simp at h

/-- Selecting positions that are all in range yields one element per index. -/
lemma applyPerm_length {α : Type} : ∀ (idx : List ℕ) (l : List α),
    (∀ i ∈ idx, i < l.length) → (applyPerm idx l).length = idx.length
  | [], _, _ => rfl
  | i :: is, l, h => by
    have hi : i < l.length := h i (List.mem_cons_self i is)
    have ha : l.get? i = some (l.get ⟨i, hi⟩) := List.get?_eq_get hi
    have ih := applyPerm_length is l (fun j hj => h j (List.mem_cons_of_mem i hj))
    simp only [applyPerm, List.filterMap_cons, ha] at ih ⊢
    simp only [List.length_cons, ih]

/-- Every run of `forecast` leaves the instance trained, whatever its
outcome: the train-or-load prelude runs first and every later branch
returns its state unchanged. -/
lemma forecast_is_trained (pv : PredictFun) (perm : ℕ → ℕ → List ℕ)
    (noise : ℕ → ℝ) (st : ForecasterState) (fs : FileSystem) (now days : ℕ) :
    (forecast pv perm noise st fs now days).1.is_trained = true := by
  have h1 := ensure_ready_step_is_trained pv perm noise st fs
  simp only [forecast]
  cases hm : (ensure_ready_step pv perm noise st fs).1.model with
  | none => simpa [hm] using h1
  | some m =>
    cases hp : modelPredict pv m (futureX now days) with
    | error e => simpa [hm, hp] using h1
    | ok preds => simpa [hm, hp] using h1

/-- C3: the Feature Encoder is a pure deterministic function of the calendar
fields — encoding the same fields twice yields identical feature columns
(purity is inherent in the embedding of the side-effect-free
`create_features`) — and for every input the cyclical pairs lie on the unit
circle: `day_sin² + day_cos² = 1` and `month_sin² + month_cos² = 1`
(exactly, in the real-number embedding of the float computation). -/
theorem claim_C3 : ∀ c : CalendarFields,
    cyclicalOf c = cyclicalOf c
    ∧ (cyclicalOf c).day_sin ^ 2 + (cyclicalOf c).day_cos ^ 2 = 1
    ∧ (cyclicalOf c).month_sin ^ 2 + (cyclicalOf c).month_cos ^ 2 = 1 := by
  intro c
  refine ⟨rfl, ?_, ?_⟩ <;>
    simp [cyclicalOf, Real.sin_sq_add_cos_sq]

/-- C10: `create_features` does not mutate its input — in the embedding of
`df.copy()` plus new columns, each output row is the untouched input row
paired with the four cyclical columns, so projecting the original rows out
of the result recovers the input sequence exactly, for both the historical
and the future DataFrame shape. -/
theorem claim_C10 : ∀ (dfH : List HistRow) (dfF : List FutRow),
    (create_features_hist dfH).map Prod.fst = dfH
    ∧ (create_features_future dfF).map Prod.fst = dfF
    ∧ (create_features_hist dfH).map Prod.snd = dfH.map (fun r => cyclicalOf r.cal)
    ∧ (create_features_future dfF).map Prod.snd = dfF.map (fun r => cyclicalOf r.cal) := by
  intro dfH dfF
  refine ⟨?_, ?_, ?_, ?_⟩ <;>
    simp [create_features_hist, create_features_future, List.map_map, Function.comp_def]

/-- C2: the training path and the prediction path use the same feature
encoding — both factor through `create_features` followed by the
`feature_columns` selection, and for any historical record and any future
record with equal calendar fields the resulting feature vectors are equal
column for column. -/
theorem claim_C2 :
    (∀ df : List HistRow,
      (create_features_hist df).map featuresOfHist = df.map trainFeatureRow)
    ∧ (∀ df : List FutRow,
      (create_features_future df).map featuresOfFut = df.map forecastFeatureRow)
    ∧ ∀ (r : HistRow) (s : FutRow), r.cal = s.cal →
        trainFeatureRow r = forecastFeatureRow s := by
  refine ⟨?_, ?_, ?_⟩
  · intro df
    simp [create_features_hist, List.map_map, trainFeatureRow, Function.comp_def]
  · intro df
    simp [create_features_future, List.map_map, forecastFeatureRow, Function.comp_def]
  · intro r s h
    simp [trainFeatureRow, forecastFeatureRow, featuresOfHist, featuresOfFut, h]

/-- Witness for C2 at concrete records sharing the calendar fields of
2022-01-01. -/
theorem claim_C2_witness : trainFeatureRow histW = forecastFeatureRow futW :=
  claim_C2.2.2 histW futW rfl

/-- C5: for every period count `P` the Synthetic Data Generator returns `P`
records whose sales at index `t` equal
`max(0, trend(t) + 50 sin(2π weekday(t)/7) + 30 sin(2π day_of_month(t)/30) + noise(t))`
— `trend` being the `np.linspace(100, 500, P)` interpolation and
`weekday`/`day_of_month` the calendar fields of `2022-01-01 + t` days — and
in particular no generated sales value is negative. The Gaussian draws are
the abstract stream `noise`; the theorem holds for every realization of it. -/
theorem claim_C5 : ∀ (noise : ℕ → ℝ) (P : ℕ),
    (generate_sample_data noise P).length = P
    ∧ (generate_sample_data noise P).map (fun r => r.sales)
        = (List.range P).map (fun t =>
            max 0 (trendVal P t
              + 50 * Real.sin (2 * Real.pi *
                  ((calendarOf (date2022 + t * nsPerDay)).day_of_week : ℝ) / 7)
              + 30 * Real.sin (2 * Real.pi *
                  ((calendarOf (date2022 + t * nsPerDay)).day_of_month : ℝ) / 30)
              + noise t))
    ∧ (generate_sample_data noise P).Forall (fun r => 0 ≤ r.sales) := by
  intro noise P
  refine ⟨generate_sample_data_length noise P, ?_, ?_⟩
  · unfold generate_sample_data
    rw [List.map_map]
    apply List.map_congr_left
    intro t _
    exact max_comm _ 0
  · rw [List.forall_iff_forall_mem]
    intro r hr
    simp only [generate_sample_data, List.mem_map, List.mem_range] at hr
    obtain ⟨t, _, rfl⟩ := hr
    exact le_max_right _ _

/-- C1: for every `days ≥ 1`, `forecast(days)` (from any state satisfying
the class invariant, any artifact, any predictor, any noise/shuffle
realization) returns exactly `days` records; their dates are exactly
`normalize(now) + 1 day, normalize(now) + 2 days, ...` — hence strictly
ascending, contiguous consecutive calendar days, the first exactly one day
after the call time truncated to start-of-day — and every returned date is
strictly after `now`. -/
theorem claim_C1 : ∀ (pv : PredictFun) (perm : ℕ → ℕ → List ℕ) (noise : ℕ → ℝ)
    (st : ForecasterState) (fs : FileSystem) (now days : ℕ),
    WellFormed st → 1 ≤ days →
    ∃ (st' : ForecasterState) (fs' : FileSystem) (recs : List ForecastRecord),
      forecast pv perm noise st fs now days = (st', fs', .ok recs)
      ∧ recs.length = days
      ∧ recs.map ForecastRecord.date
          = (List.range days).map (fun i => normalizeTs now + (i + 1) * nsPerDay)
      ∧ (recs.map ForecastRecord.date)[0]? = some (normalizeTs now + nsPerDay)
      ∧ (∀ i, i + 1 < days →
          (recs.map ForecastRecord.date)[i + 1]?
            = ((recs.map ForecastRecord.date)[i]?).map (fun d => d + nsPerDay))
      ∧ ∀ d ∈ recs.map ForecastRecord.date, now < d := by
  intro pv perm noise st fs now days hwf hd
  obtain ⟨m, hm, -⟩ := ensure_ready_step_ready pv perm noise st fs hwf
  have hlen : (futureDates now days).length = ((futureX now days).map (pv m)).length := by
    simp [futureDates_length, futureX_length]
  have hD : (List.zipWith (fun d p => ({ date := d, predicted_sales := p } : ForecastRecord))
      (futureDates now days) ((futureX now days).map (pv m))).map ForecastRecord.date
        = futureDates now days :=
    map_date_zipWith _ _ hlen
  refine ⟨_, _, _, forecast_eq_ok pv perm noise st fs now days m hm hd, ?_, ?_, ?_, ?_, ?_⟩
  · rw [← List.length_map _ ForecastRecord.date, hD, futureDates_length]
  · rw [hD]; rfl
  · rw [hD]
    show ((List.range days).map
      (fun i => normalizeTs now + (i + 1) * nsPerDay))[0]? = _
    rw [List.getElem?_map, List.getElem?_range (show 0 < days from hd)]
    simp
  · intro i hi
    rw [hD]
    show ((List.range days).map
        (fun i => normalizeTs now + (i + 1) * nsPerDay))[i + 1]?
      = (((List.range days).map
        (fun i => normalizeTs now + (i + 1) * nsPerDay))[i]?).map
          (fun d => d + nsPerDay)
    rw [List.getElem?_map, List.getElem?_map,
      List.getElem?_range (show i + 1 < days from hi),
      List.getElem?_range (show i < days by omega)]
    simp only [Option.map_some']
    refine congrArg some ?_
    unfold nsPerDay
    omega
  · intro d hdm
    rw [hD] at hdm
    simp only [futureDates, List.mem_map, List.mem_range] at hdm
    obtain ⟨i, -, rfl⟩ := hdm
    calc now < normalizeTs now + nsPerDay := lt_normalizeTs_add now
    _ ≤ normalizeTs now + (i + 1) * nsPerDay := by
        have : nsPerDay ≤ (i + 1) * nsPerDay :=
          Nat.le_mul_of_pos_left nsPerDay (Nat.succ_pos i)
        omega

/-- Witness for C1: a concrete 3-day forecast from the freshly initialized
service. -/
theorem claim_C1_witness :
    WellFormed initState ∧ 1 ≤ 3 ∧
    ∃ (st' : ForecasterState) (fs' : FileSystem) (recs : List ForecastRecord),
      forecast pvZero permId noiseZero initState { artifact := none } 0 3
          = (st', fs', .ok recs)
      ∧ recs.length = 3
      ∧ recs.map ForecastRecord.date
          = (List.range 3).map (fun i => normalizeTs 0 + (i + 1) * nsPerDay)
      ∧ (recs.map ForecastRecord.date)[0]? = some (normalizeTs 0 + nsPerDay)
      ∧ (∀ i, i + 1 < 3 →
          (recs.map ForecastRecord.date)[i + 1]?
            = ((recs.map ForecastRecord.date)[i]?).map (fun d => d + nsPerDay))
      ∧ ∀ d ∈ recs.map ForecastRecord.date, 0 < d :=
  ⟨wf_init, by decide,
    claim_C1 pvZero permId noiseZero initState { artifact := none } 0 3 wf_init (by decide)⟩

/-- C6: the service state machine — `is_trained` starts `false`
(`__init__`); a `train_model` run either succeeds and sets it (also holding
the fitted model and writing the artifact) or fails with the instance state
and file system exactly as before (the raise happens before any mutation),
so a failed attempt from Uninitialized leaves the service Uninitialized;
and `forecast` (whose prelude is the only other place the flag is assigned)
always leaves the flag set after a successful internal train-or-load, never
clearing it — so the flag never transitions back to `false`. -/
theorem claim_C6 :
    initState.is_trained = false
    ∧ (∀ (pv : PredictFun) (perm : ℕ → ℕ → List ℕ) (noise : ℕ → ℝ)
        (st : ForecasterState) (fs : FileSystem) (dfOpt : Option (List HistRow)),
        (isOkE (train_model pv perm noise st fs dfOpt).2.2 = true
          ∧ (train_model pv perm noise st fs dfOpt).1.is_trained = true
          ∧ (train_model pv perm noise st fs dfOpt).1.model.isSome = true
          ∧ (train_model pv perm noise st fs dfOpt).2.1.artifact.isSome = true)
        ∨ (isOkE (train_model pv perm noise st fs dfOpt).2.2 = false
          ∧ (train_model pv perm noise st fs dfOpt).1 = st
          ∧ (train_model pv perm noise st fs dfOpt).2.1 = fs))
    ∧ (∀ (pv : PredictFun) (perm : ℕ → ℕ → List ℕ) (noise : ℕ → ℝ)
        (st : ForecasterState) (fs : FileSystem) (now days : ℕ),
        (forecast pv perm noise st fs now days).1.is_trained = true) := by
  refine ⟨rfl, ?_, forecast_is_trained⟩
  intro pv perm noise st fs dfOpt
  simp only [train_model]
  split
  · right
    exact ⟨rfl, rfl, rfl⟩
  · left
    exact ⟨rfl, rfl, rfl, rfl⟩

/-- C7: the ready-making step (the train-or-load prelude of `forecast`) is
idempotent — running it on its own output is the identity, and when the
instance is already trained it is a no-op that loads nothing, writes no
artifact and leaves the held model (hence its predictions) unchanged; when
untrained it loads an existing artifact without retraining, or falls back
to training exactly once. -/
theorem claim_C7 : ∀ (pv : PredictFun) (perm : ℕ → ℕ → List ℕ) (noise : ℕ → ℝ)
    (st : ForecasterState) (fs : FileSystem),
    (ensure_ready_step pv perm noise
        (ensure_ready_step pv perm noise st fs).1
        (ensure_ready_step pv perm noise st fs).2
      = ensure_ready_step pv perm noise st fs)
    ∧ (st.is_trained = true → ensure_ready_step pv perm noise st fs = (st, fs))
    ∧ (st.is_trained = false → ∀ m : FittedModel, fs.artifact = some m →
        ensure_ready_step pv perm noise st fs
          = ({ model := some m, is_trained := true }, fs))
    ∧ (st.is_trained = false → fs.artifact = none →
        ensure_ready_step pv perm noise st fs
          = ({ model := some (defaultFit perm noise), is_trained := true },
             { artifact := some (defaultFit perm noise) })) := by
  intro pv perm noise st fs
  refine ⟨?_, ensure_ready_step_trained pv perm noise st fs,
    fun h m ha => ensure_ready_step_load pv perm noise st fs m h ha,
    ensure_ready_step_trains pv perm noise st fs⟩
  rw [ensure_ready_step_trained pv perm noise _ _
    (ensure_ready_step_is_trained pv perm noise st fs)]

/-- Witness for C7: the prelude on an already-trained instance, on an
untrained instance with an artifact, and on a fresh instance with no
artifact. -/
theorem claim_C7_witness :
    ensure_ready_step pvZero permId noiseZero stW { artifact := none }
      = (stW, { artifact := none })
    ∧ ensure_ready_step pvZero permId noiseZero initState { artifact := some fitW }
      = ({ model := some fitW, is_trained := true }, { artifact := some fitW })
    ∧ ensure_ready_step pvZero permId noiseZero initState { artifact := none }
      = ({ model := some (defaultFit permId noiseZero), is_trained := true },
         { artifact := some (defaultFit permId noiseZero) }) :=
  ⟨(claim_C7 pvZero permId noiseZero stW { artifact := none }).2.1 rfl,
   (claim_C7 pvZero permId noiseZero initState { artifact := some fitW }).2.2.1 rfl fitW rfl,
   (claim_C7 pvZero permId noiseZero initState { artifact := none }).2.2.2 rfl rfl⟩

/-- C8 counterexample: on a trained instance, `forecast` with `days = 0`
raises the sklearn `ValueError` for an empty prediction batch — not an
`InvalidRangeError` — and the `/forecast` endpoint of `app.py` passes the
parsed day count to the core unvalidated (it is the identity on the core
call), so the day count is not rejected before reaching the core either. -/
theorem claim_C8_counterexample :
    (forecast pvZero permId noiseZero stW { artifact := none } 0 0).2.2
        = .error (PyError.valueError emptyBatchMsg)
    ∧ (forecast pvZero permId noiseZero stW { artifact := none } 0 0).2.2
        ≠ .error PyError.invalidRangeError
    ∧ get_forecast pvZero permId noiseZero stW { artifact := none } 0 0
        = forecast pvZero permId noiseZero stW { artifact := none } 0 0 := by
  have hm : (ensure_ready_step pvZero permId noiseZero stW { artifact := none }).1.model
      = some fitW := by
    rw [ensure_ready_step_trained pvZero permId noiseZero stW { artifact := none } rfl]
    rfl
  have h := forecast_zero_eq pvZero permId noiseZero stW { artifact := none } 0 fitW hm
  refine ⟨by rw [h], ?_, rfl⟩
  rw [h]
  simp

/-- C8 as amended: calling `forecast` with `days = 0` (from any state
satisfying the class invariant) builds an empty future batch and fails with
the `ValueError` the underlying predictor raises on zero samples — the code
defines no `InvalidRangeError` and does not reject the day count before the
core — and in particular it never returns a record sequence. -/
theorem claim_C8_amended : ∀ (pv : PredictFun) (perm : ℕ → ℕ → List ℕ)
    (noise : ℕ → ℝ) (st : ForecasterState) (fs : FileSystem) (now : ℕ),
    WellFormed st →
    forecast pv perm noise st fs now 0 =
      ((ensure_ready_step pv perm noise st fs).1,
       (ensure_ready_step pv perm noise st fs).2,
       .error (PyError.valueError emptyBatchMsg)) := by
  intro pv perm noise st fs now hwf
  obtain ⟨m, hm, -⟩ := ensure_ready_step_ready pv perm noise st fs hwf
  exact forecast_zero_eq pv perm noise st fs now m hm

/-- Witness for the amended C8 at the freshly initialized service. -/
theorem claim_C8_witness :
    WellFormed initState ∧
    forecast pvZero permId noiseZero initState { artifact := none } 0 0 =
      ((ensure_ready_step pvZero permId noiseZero initState { artifact := none }).1,
       (ensure_ready_step pvZero permId noiseZero initState { artifact := none }).2,
       .error (PyError.valueError emptyBatchMsg)) :=
  ⟨wf_init,
    claim_C8_amended pvZero permId noiseZero initState { artifact := none } 0 wf_init⟩

/-- C9 counterexample: from the Uninitialized state with no artifact,
`forecast(7)` does not fail with `NotReadyError` — it succeeds (the code
trains internally instead of raising). -/
theorem claim_C9_counterexample :
    isOkE (forecast pvZero permId noiseZero initState { artifact := none } 0 7).2.2 = true
    ∧ (forecast pvZero permId noiseZero initState { artifact := none } 0 7).2.2
        ≠ .error PyError.notReadyError := by
  have hm : (ensure_ready_step pvZero permId noiseZero initState
      { artifact := none }).1.model = some (defaultFit permId noiseZero) := by
    rw [ensure_ready_step_trains pvZero permId noiseZero initState
      { artifact := none } rfl rfl]
  have h := forecast_eq_ok pvZero permId noiseZero initState { artifact := none } 0 7
    (defaultFit permId noiseZero) hm (by decide)
  exact ⟨by rw [h]; rfl, by rw [h]; simp⟩

/-- C9 as amended: `forecast(days)` called while no train-or-load has ever
completed (the Uninitialized state) never fails with `NotReadyError`:
it first loads the artifact if one exists, otherwise trains, leaving the
service trained, and succeeds exactly when the day count is positive (with
`days = 0` it fails — with the empty-batch `ValueError`, not
`NotReadyError`). -/
theorem claim_C9_amended : ∀ (pv : PredictFun) (perm : ℕ → ℕ → List ℕ)
    (noise : ℕ → ℝ) (fs : FileSystem) (now days : ℕ),
    isOkE (forecast pv perm noise initState fs now days).2.2 = decide (0 < days)
    ∧ (forecast pv perm noise initState fs now days).1.is_trained = true := by
  intro pv perm noise fs now days
  refine ⟨?_, forecast_is_trained pv perm noise initState fs now days⟩
  obtain ⟨m, hm, -⟩ := ensure_ready_step_ready pv perm noise initState fs wf_init
  rcases Nat.eq_zero_or_pos days with h0 | hpos
  · subst h0
    rw [forecast_zero_eq pv perm noise initState fs now m hm]
    simp [isOkE]
  · rw [forecast_eq_ok pv perm noise initState fs now days m hm hpos]
    simp [isOkE, hpos]

/-- C4: `train_model` with no records obtains the default 365 generated
records, holds out 20% of them (73 of 365, the split indices drawn by the
seeded generator with the fixed seed 42), fits the bagged-ensemble
decision-tree regressor with 100 trees, depth 10 and seed 42 on the
remaining 80% (292 records), marks the instance trained, overwrites the
artifact slot with the fitted estimator (whatever was there before), and
returns the mean absolute error and root-mean-squared error computed on
the held-out 73 records. Stated for every index sequence `perm 42 365`
that is a permutation of the sample range, which the seeded shuffle
guarantees. -/
theorem claim_C4 : ∀ (pv : PredictFun) (perm : ℕ → ℕ → List ℕ) (noise : ℕ → ℝ)
    (st : ForecasterState) (fs : FileSystem),
    List.Perm (perm 42 365) (List.range 365) →
    ∃ m : FittedModel,
      train_model pv perm noise st fs none =
        ({ model := some m, is_trained := true }, { artifact := some m },
         .ok (meanAbsoluteError (applyPerm ((perm 42 365).take 73) (defaultY noise))
                ((applyPerm ((perm 42 365).take 73) (defaultX noise)).map (pv m)),
              Real.sqrt (meanSquaredError
                (applyPerm ((perm 42 365).take 73) (defaultY noise))
                ((applyPerm ((perm 42 365).take 73) (defaultX noise)).map (pv m)))))
      ∧ m.nEstimators = 100 ∧ m.randomState = 42 ∧ m.maxDepth = 10
      ∧ m.trainX = applyPerm ((perm 42 365).drop 73) (defaultX noise)
      ∧ m.trainY = applyPerm ((perm 42 365).drop 73) (defaultY noise)
      ∧ m.trainX.length = 292
      ∧ (applyPerm ((perm 42 365).take 73) (defaultY noise)).length = 73
      ∧ (generate_sample_data noise 365).length = 365 := by
  intro pv perm noise st fs hperm
  have hlenp : (perm 42 365).length = 365 := by
    simpa using hperm.length_eq
  have hmem : ∀ i ∈ perm 42 365, i < 365 := fun i hi =>
    List.mem_range.mp (hperm.mem_iff.mp hi)
  refine ⟨defaultFit perm noise, ?_, rfl, rfl, rfl, rfl, rfl, ?_, ?_,
    generate_sample_data_length noise 365⟩
  · rw [train_model_none_eq]
    rfl
  · show (applyPerm ((perm 42 365).drop 73) (defaultX noise)).length = 292
    rw [applyPerm_length _ _ (fun i hi => by
      rw [defaultX_length]
      exact hmem i (List.drop_subset 73 (perm 42 365) hi))]
    rw [List.length_drop, hlenp]
  · rw [applyPerm_length _ _ (fun i hi => by
      rw [defaultY_length]
      exact hmem i (List.take_subset 73 (perm 42 365) hi))]
    rw [List.length_take, hlenp]
    norm_num

/-- Witness for C4: the default training run with the identity shuffle. -/
theorem claim_C4_witness :
    List.Perm (permId 42 365) (List.range 365) ∧
    ∃ m : FittedModel,
      train_model pvZero permId noiseZero initState { artifact := none } none =
        ({ model := some m, is_trained := true }, { artifact := some m },
         .ok (meanAbsoluteError
                (applyPerm ((permId 42 365).take 73) (defaultY noiseZero))
                ((applyPerm ((permId 42 365).take 73) (defaultX noiseZero)).map
                  (pvZero m)),
              Real.sqrt (meanSquaredError
                (applyPerm ((permId 42 365).take 73) (defaultY noiseZero))
                ((applyPerm ((permId 42 365).take 73) (defaultX noiseZero)).map
                  (pvZero m)))))
      ∧ m.nEstimators = 100 ∧ m.randomState = 42 ∧ m.maxDepth = 10
      ∧ m.trainX = applyPerm ((permId 42 365).drop 73) (defaultX noiseZero)
      ∧ m.trainY = applyPerm ((permId 42 365).drop 73) (defaultY noiseZero)
      ∧ m.trainX.length = 292
      ∧ (applyPerm ((permId 42 365).take 73) (defaultY noiseZero)).length = 73
      ∧ (generate_sample_data noiseZero 365).length = 365 :=
  ⟨List.Perm.refl (List.range 365),
    claim_C4 pvZero permId noiseZero initState { artifact := none }
      (List.Perm.refl (List.range 365))⟩
